import Mathlib

/-
Verification of the cleanify_backend waste-collection core.

Shallow embedding of the Python source into Lean 4:
  * machine floats are modelled as exact rationals (ℚ);
  * `datetime` bookkeeping fields (`created_at`, `updated_at`,
    `last_maintenance`, `last_collected`) are omitted: no verified claim
    mentions them and the code only stamps them with the wall clock;
  * transcendental helpers (`math.exp` in the rush-intensity curve,
    the haversine distance) are taken as explicit parameters of the
    embedded functions;
  * a Python function that can raise is embedded with an `Option` result
    (`none` = exception).
-/

namespace Cleanify

/-- `TruckStatus` from `core/models/truck.py`. -/
inductive TruckStatus where
  | idle
  | en_route
  | collecting
  | returning
  | maintenance
  | offline
deriving DecidableEq, Repr

/-- `Truck` dataclass from `core/models/truck.py` (datetime stamps omitted). -/
structure Truck where
  id : String
  capacity : ℚ
  location : ℚ × ℚ
  load : ℚ := 0
  status : TruckStatus := .idle
  route : List String := []
  speed : ℚ := 50
  fuel_level : ℚ := 100
  fuel_consumption : ℚ := 1/10
  depot_location : ℚ × ℚ := (0, 0)
  current_route_index : ℕ := 0
  total_distance_traveled : ℚ := 0
  collections_today : ℕ := 0
deriving DecidableEq, Repr

/-- The validation performed by `Truck.__post_init__` (construction succeeds
exactly when these hold). -/
def Truck.valid (t : Truck) : Prop :=
  0 < t.capacity ∧ 0 ≤ t.load ∧ t.load ≤ t.capacity ∧
  0 ≤ t.fuel_level ∧ t.fuel_level ≤ 100 ∧ 0 < t.speed

/-- `Truck.needs_maintenance`. -/
def Truck.needs_maintenance (t : Truck) : Bool :=
  decide (t.status = .maintenance) || decide (t.fuel_level < 10)

/-- `Truck.is_available`. -/
def Truck.is_available (t : Truck) : Bool :=
  (decide (t.status = .idle) || decide (t.status = .en_route)) && !t.needs_maintenance

/-- `Truck.is_full` (95% capacity threshold). -/
def Truck.is_full (t : Truck) : Bool :=
  decide (t.capacity * (95/100) ≤ t.load)

/-- `Truck.can_collect_bin`. -/
def Truck.can_collect_bin (t : Truck) (bin_load : ℚ) : Bool :=
  decide (t.load + bin_load ≤ t.capacity) && t.is_available

/-- `Truck.collect_bin`: returns the Python `bool` result together with the
mutated truck. On success the bin id is removed from the route
(`list.remove` removes the first occurrence) and the cursor is clamped. -/
def Truck.collect_bin (t : Truck) (bin_id : String) ( bin_load : ℚ) : Bool × Truck :=
  if t.can_collect_bin bin_load then
    let t1 : Truck :=
      { t with load := t.load + bin_load,
               collections_today := t.collections_today + 1,
               status := .collecting }
    let t2 : Truck :=
      if bin_id ∈ t1.route then
        let r := t1.route.erase bin_id
        { t1 with route := r,
                  current_route_index :=
                    if r.length ≤ t1.current_route_index then r.length - 1
                    else t1.current_route_index }
      else t1
    (true, t2)
  else (false, t)

/-- `Truck.empty_load`: returns the emptied amount and the mutated truck. -/
def Truck.empty_load (t : Truck) : ℚ × Truck :=
  (t.load, { t with load := 0, status := .idle, location := t.depot_location })

/-- `Truck.assign_route`. -/
def Truck.assign_route (t : Truck) (bin_ids : List String) : Truck :=
  { t with route := bin_ids,
           current_route_index := 0,
           status := if bin_ids = [] then .idle else .en_route }

/-- A step of the sequences quantified over in the spec's truck-load
invariant: one `collect_bin` call (with its arguments) or one `empty_load`
call. -/
inductive TruckOp where
  | collect (bin_id : String) (bin_load : ℚ)
  | empty
deriving DecidableEq, Repr

/-- Apply one operation (discarding the returned value, keeping the state). -/
def Truck.applyOp (t : Truck) : TruckOp → Truck
  | .collect i x => (t.collect_bin i x).2
  | .empty => t.empty_load.2

/-- Apply a finite sequence of collect/empty operations. -/
def Truck.applyOps (t : Truck) (ops : List TruckOp) : Truck :=
  ops.foldl Truck.applyOp t

/-- `WasteType` from `core/models/bin.py`. -/
inductive WasteType where
  | general
  | recyclable
  | hazardous
deriving DecidableEq, Repr

/-- `BinStatus` from `core/models/bin.py`. -/
inductive BinStatus where
  | active
  | full
  | maintenance
  | collected
deriving DecidableEq, Repr

/-- `Bin` dataclass from `core/models/bin.py` (datetime stamps omitted). -/
structure Bin where
  id : String
  type : WasteType
  location : ℚ × ℚ
  fill_level : ℚ
  static_threshold : ℚ
  capacity : ℚ := 100
  status : BinStatus := .active
  fill_rate : ℚ := 5
  priority : ℕ := 1
deriving DecidableEq, Repr

/-- `Bin.collect`: the collected amount together with the mutated bin.
A bin whose status is not `active` is left unchanged and yields `0.0`. -/
def Bin.collect (b : Bin) : ℚ × Bin :=
  if b.status ≠ .active then (0, b)
  else ((b.fill_level / 100) * b.capacity,
        { b with fill_level := 0, status := .collected })

/-- `Bin.update_fill_level`. -/
def Bin.update_fill_level (b : Bin) (minutes_passed : ℚ) : Bin :=
  if b.status ≠ .active then b
  else
    let fill_increase := b.fill_rate * (minutes_passed / 60) / b.capacity * 100
    let f := min 100 (b.fill_level + fill_increase)
    { b with fill_level := f, status := if 100 ≤ f then .full else b.status }

/-- `Bin.reset_status`. -/
def Bin.reset_status (b : Bin) : Bin :=
  if b.status = .collected then { b with status := .active } else b

/-- `SimulationService._handle_bin_collection`: the engine's collection step
for one truck reaching one bin. Result: mutated truck, mutated bin, and the
amount of the emitted `bin_collected` event (`none` when no collection took
place). -/
def handle_bin_collection (truck : Truck) (b : Bin) : Truck × Bin × Option ℚ :=
  if b.status ≠ .active ∨ truck.is_full then (truck, b, none)
  else
    let bin_load := (b.fill_level / 100) * b.capacity
    if truck.can_collect_bin bin_load then
      let collected := b.collect
      let t1 := (truck.collect_bin b.id collected.1).2
      (t1, collected.2.reset_status, some collected.1)
    else (truck, b, none)

/-- Nonnegativity of the amount argument of a `collect_bin` call. -/
def TruckOp.nonneg : TruckOp → Prop
  | .collect _ x => 0 ≤ x
  | .empty => True

instance : DecidablePred TruckOp.nonneg := fun op =>
  match op with
  | .collect _ x => inferInstanceAs (Decidable (0 ≤ x))
  | .empty => inferInstanceAs (Decidable True)

/-- Concrete truck used in witnesses: capacity 100, empty, idle. -/
def truckW : Truck := { id := "t1", capacity := 100, location := (0, 0) }

/-- Concrete active bin at fill 95 (fill rate 5 kg/h, capacity 100 kg). -/
def binW : Bin :=
  { id := "b1", type := .general, location := (0, 0), fill_level := 95,
    static_threshold := 80 }

/-- Concrete collected bin. -/
def binCollectedW : Bin := { binW with status := .collected }

/-- Concrete full bin at fill 100. -/
def binFullW : Bin := { binW with fill_level := 100, status := .full }

/-- Truck with 10 kg of remaining capacity (load 90 of 100). -/
def truck90W : Truck := { id := "t9", capacity := 100, load := 90, location := (0, 0) }

/-- Active bin holding 50 kg (fill 50 of capacity 100). -/
def bin50W : Bin :=
  { id := "b5", type := .general, location := (0, 0), fill_level := 50,
    static_threshold := 80 }

/-- Available en-route truck at 96% load: above the 95% `is_full` threshold
although 4 kg of capacity remain. -/
def truck96W : Truck :=
  { id := "t96", capacity := 100, load := 96, location := (0, 0), status := .en_route }

/-- Active bin holding 2 kg (fill 2 of capacity 100). -/
def bin2W : Bin :=
  { id := "b2", type := .general, location := (0, 0), fill_level := 2,
    static_threshold := 80 }

/-- `Truck.move_towards`. The haversine `self._calculate_distance(location,
destination)` is transcendental, so its value is taken as the explicit
parameter `distance_to_dest`. Mirrors the source: the position update uses
`max_distance` — the effective speed times elapsed hours, BOOSTED by the
source's `* 5` — while fuel and the odometer use the unboosted
`actual_distance = min(effective_speed * time_hours, distance_to_dest)`.
Returns the mutated truck and the `reached` flag. -/
def Truck.move_towards (t : Truck) (destination : ℚ × ℚ)
    (time_delta_minutes traffic_multiplier distance_to_dest : ℚ) : Truck × Bool :=
  if t.status = .offline ∨ t.status = .maintenance then (t, false)
  else if distance_to_dest < 1/100 then (t, true)
  else
    let time_hours := time_delta_minutes / 60
    let effective_speed := t.speed / traffic_multiplier
    let max_distance := effective_speed * time_hours * 5
    let actual_distance := min (effective_speed * time_hours) distance_to_dest
    let fuel_consumed := actual_distance * t.fuel_consumption
    let t1 : Truck :=
      { t with fuel_level := max 0 (t.fuel_level - fuel_consumed),
               total_distance_traveled := t.total_distance_traveled + actual_distance }
    if distance_to_dest ≤ max_distance then
      ({ t1 with location := destination }, true)
    else
      let ratio := max_distance / distance_to_dest
      ({ t1 with location :=
          (t.location.1 + (destination.1 - t.location.1) * ratio,
           t.location.2 + (destination.2 - t.location.2) * ratio) }, false)

/-- En-route truck (default speed 50 km/h, fuel 100, consumption 0.1 L/km)
used in movement witnesses. -/
def truckEnRouteW : Truck :=
  { id := "tm", capacity := 100, location := (0, 0), status := .en_route }

/-- A scheduled traffic event (`add_traffic_event` dict), times in
simulated minutes. -/
structure TrafficEvent where
  start_time : ℚ
  end_time : ℚ
  multiplier_delta : ℚ
deriving DecidableEq, Repr

/-- The traffic mode strings `"auto"`/`"manual"`. -/
inductive TrafficMode where
  | auto
  | manual
deriving DecidableEq, Repr

/-- `TrafficService` state from `core/services/traffic_service.py`, with its
`__init__` defaults. Simulated time is measured in minutes. -/
structure TrafficService where
  mode : TrafficMode := .auto
  manual_mult : ℚ := 1
  last_update_time : ℚ := 0
  current_auto_multiplier : ℚ := 1
  rush_hour_morning : ℚ × ℚ := (7, 9)
  rush_hour_evening : ℚ × ℚ := (17, 19)
  base_multiplier : ℚ := 1
  max_multiplier : ℚ := 2
  min_multiplier : ℚ := 1
  update_interval_minutes : ℚ := 5
  noise_amplitude : ℚ := 1/10
  traffic_events : List TrafficEvent := []

/-- `TrafficService._calculate_time_based_multiplier`. In the source the
evening rush-hour variables are bound INSIDE the morning-rush branch
(`evening_start, evening_end = self.rush_hour_evening` is indented under
the morning `if`), and the first `elif` reads `evening_start`; therefore
every call at a time outside the morning window raises
`UnboundLocalError`, modelled as `none` — the late-night and regular-hours
arms below it are unreachable. The bell-curve `_calculate_rush_intensity`
uses `math.exp` (transcendental) and is taken as the parameter
`rush_intensity`. -/
def calculate_time_based_multiplier (rush_intensity : ℚ → ℚ → ℚ → ℚ)
    (s : TrafficService) (hour minute day_of_week : ℕ) : Option ℚ :=
  let weekend_factor : ℚ := if 5 ≤ day_of_week then 8/10 else 1
  let current_time_decimal : ℚ := (hour : ℚ) + (minute : ℚ) / 60
  if s.rush_hour_morning.1 ≤ current_time_decimal ∧
      current_time_decimal ≤ s.rush_hour_morning.2 then
    some ((s.base_multiplier +
        (6/10) * rush_intensity current_time_decimal s.rush_hour_morning.1
          s.rush_hour_morning.2) * weekend_factor)
  else none

/-- `TrafficService._calculate_event_multiplier`: drops expired events,
then sums the deltas of the active ones; returns the sum and the retained
event list. -/
def calculate_event_multiplier (events : List TrafficEvent) (now_minutes : ℚ) :
    ℚ × List TrafficEvent :=
  let kept := events.filter (fun e => decide (now_minutes < e.end_time))
  ((kept.filter (fun e =>
      decide (e.start_time ≤ now_minutes) && decide (now_minutes ≤ e.end_time))).foldl
      (fun a e => a + e.multiplier_delta) 0,
   kept)

/-- `TrafficService._update_auto_multiplier`. The random noise draw is taken
as the parameter `noise`; the simulated clock readings as `now_minutes`
plus the derived `hour`/`minute`/`day_of_week`. `none` propagates the
`UnboundLocalError` of the time-based multiplier (raised before noise and
events are even computed). -/
def update_auto_multiplier (rush_intensity : ℚ → ℚ → ℚ → ℚ) (s : TrafficService)
    (now_minutes : ℚ) (hour minute day_of_week : ℕ) (noise : ℚ) :
    Option TrafficService :=
  if now_minutes - s.last_update_time < s.update_interval_minutes then some s
  else
    match calculate_time_based_multiplier rush_intensity s hour minute day_of_week with
    | none => none
    | some base_mult =>
        let em := calculate_event_multiplier s.traffic_events now_minutes
        let new_multiplier := base_mult + noise + em.1
        some { s with
          current_auto_multiplier :=
            max s.min_multiplier (min s.max_multiplier new_multiplier),
          traffic_events := em.2,
          last_update_time := now_minutes }

/-- `TrafficService.current_multiplier`: the manual constant in manual mode,
otherwise the (possibly raising) auto update followed by reading the stored
auto multiplier. -/
def current_multiplier (rush_intensity : ℚ → ℚ → ℚ → ℚ) (s : TrafficService)
    (now_minutes : ℚ) (hour minute day_of_week : ℕ) (noise : ℚ) : Option ℚ :=
  match s.mode with
  | .manual => some s.manual_mult
  | .auto =>
      (update_auto_multiplier rush_intensity s now_minutes hour minute day_of_week
        noise).map TrafficService.current_auto_multiplier

/-- Fresh auto-mode traffic service (all `__init__` defaults, last update at
minute 0). -/
def trafficAutoW : TrafficService := {}

/-- `OptimizationService` rate-limit state used by `maybe_reoptimize`
(config default `radar_check_interval_minutes = 2`). -/
structure OptimizationService where
  last_radar_check : ℚ := 0
  radar_check_interval_minutes : ℚ := 2
deriving DecidableEq, Repr

/-- `OptimizationService._find_urgent_bins`: every *active* bin whose fill
level has reached its threshold. `threshold_for` stands for
`threshold_service.threshold_for`. Note: no comparison against any
previously recorded urgency set takes place. -/
def find_urgent_bins (threshold_for : Bin → ℚ) (bins : List Bin) : List Bin :=
  bins.filter (fun b =>
    decide (b.status = .active) && decide (threshold_for b ≤ b.fill_level))

/-- First loop of `_try_incremental_insertion`: assign a single-bin route to
the first idle truck that can take the bin's capacity. `none` = no such
truck; `some` returns the truck list with that truck mutated. -/
def try_idle_trucks (b : Bin) : List Truck → Option (List Truck)
  | [] => none
  | t :: ts =>
      if t.status = .idle ∧ t.can_collect_bin b.capacity then
        some (t.assign_route [b.id] :: ts)
      else (try_idle_trucks b ts).map (t :: ·)

/-- Second loop of `_try_incremental_insertion`: append the bin to the route
tail of the first en-route truck with room and fewer than 10 stops. -/
def try_en_route_trucks (b : Bin) : List Truck → Option (List Truck)
  | [] => none
  | t :: ts =>
      if t.status = .en_route ∧ t.can_collect_bin b.capacity ∧ t.route.length < 10 then
        some ({ t with route := t.route ++ [b.id] } :: ts)
      else (try_en_route_trucks b ts).map (t :: ·)

/-- `OptimizationService._try_incremental_insertion`. -/
def try_incremental_insertion (b : Bin) (trucks : List Truck) : Bool × List Truck :=
  match try_idle_trucks b trucks with
  | some ts => (true, ts)
  | none =>
      match try_en_route_trucks b trucks with
      | some ts => (true, ts)
      | none => (false, trucks)

/-- `OptimizationService.maybe_reoptimize`. Returns the Python `bool`
result, the updated rate-limit state, the mutated trucks, and — as an
explicit trace of the `for bin_obj in urgent_bins` loop — the list of bins
for which incremental insertion was attempted (empty when the rate limit
blocks the check). The `radar_checks` statistics counter is omitted. -/
def maybe_reoptimize (threshold_for : Bin → ℚ) (s : OptimizationService)
    (now_minutes : ℚ) (trucks : List Truck) (bins : List Bin) :
    Bool × OptimizationService × List Truck × List Bin :=
  if now_minutes - s.last_radar_check < s.radar_check_interval_minutes then
    (false, s, trucks, [])
  else
    let urgent := find_urgent_bins threshold_for bins
    let step := urgent.foldl
      (fun acc b =>
        let r := try_incremental_insertion b acc.2
        (acc.1 || r.1, r.2))
      ((false : Bool), trucks)
    (step.1, { s with last_radar_check := now_minutes }, step.2, urgent)

/-- `KnapsackItem` dataclass from `core/services/knapsack.py`. -/
structure KnapsackItem where
  id : String
  weight : ℚ
  value : ℚ
  location : ℚ × ℚ := (0, 0)
  fill_level : ℚ := 0
  bin_type : String := "general"
deriving DecidableEq, Repr

/-- `KnapsackItem.value_density` (`value / max(0.01, weight)`). -/
def KnapsackItem.value_density (it : KnapsackItem) : ℚ :=
  it.value / max (1/100) it.weight

/-- The three algorithm names `KnapsackSolver.solve` accepts (any other
string raises `ValueError`). -/
inductive KnapsackAlgorithm where
  | dp
  | greedy
  | auto
deriving DecidableEq, Repr

/-- `int(item.weight * 10)` — the 0.1 kg discretization of an item weight
used by `_solve_dp`. Python's `int` truncates toward zero; `⌊·⌋₊` agrees
with it for all weights above −0.1 kg (both give 0 on (−0.1, 0], the floor
on nonnegative values), which covers every input used here. -/
def intWeight (it : KnapsackItem) : ℕ := ⌊it.weight * 10⌋₊

/-- `int(capacity * 10)` — the discretized capacity used by `_solve_dp`. -/
def intCapacity (c : ℚ) : ℕ := ⌊c * 10⌋₊

/-- Sum of the true (rational) weights of a list of items. -/
def sumWeight (l : List KnapsackItem) : ℚ := (l.map KnapsackItem.weight).sum

/-- Sum of the values of a list of items. -/
def sumValue (l : List KnapsackItem) : ℚ := (l.map KnapsackItem.value).sum

/-- Sum of the discretized weights of a list of items. -/
def sumIntWeight (l : List KnapsackItem) : ℕ := (l.map intWeight).sum

/-- The `_solve_dp` table: `dpMax l w` is the Python `dp[i][w]` where `l`
lists the first `i` items in reverse order (the Python row `i` extends row
`i-1` with item `i-1`, so the last-added item is the head here). -/
def dpMax : List KnapsackItem → ℕ → ℚ
  | [], _ => 0
  | it :: rest, w =>
      if intWeight it ≤ w then
        max (dpMax rest w) (dpMax rest (w - intWeight it) + it.value)
      else dpMax rest w

/-- The `_solve_dp` backtracking loop (`for i in range(n, 0, -1)`): item
`i-1` is selected exactly when `dp[i][w] != dp[i-1][w]`, and then `w`
decreases by its discretized weight. As with `dpMax`, `l` is the item list
in reverse order, so the produced selection order matches the Python
`selected_ids` order. -/
def dpSelect : List KnapsackItem → ℕ → List KnapsackItem
  | [], _ => []
  | it :: rest, w =>
      if dpMax (it :: rest) w ≠ dpMax rest w then
        it :: dpSelect rest (w - intWeight it)
      else dpSelect rest w

/-- `KnapsackSolver._solve_dp`: selected ids, total value (`dp[n][W]`), and
the sum of the *true* weights of the selected items. -/
def solve_dp (capacity : ℚ) (items : List KnapsackItem) : List String × ℚ × ℚ :=
  let rev := items.reverse
  let W := intCapacity capacity
  let sel := dpSelect rev W
  (sel.map KnapsackItem.id, dpMax rev W, sumWeight sel)

/-- The accumulation loop of `_solve_greedy`: scan the (sorted) items,
taking an item whenever the running total plus its weight still fits.
`total` is the running `total_weight`; the result lists the taken items in
acceptance order, so the reported totals are its weight/value sums. -/
def greedySelect (capacity : ℚ) : ℚ → List KnapsackItem → List KnapsackItem
  | _, [] => []
  | total, it :: rest =>
      if total + it.weight ≤ capacity then it :: greedySelect capacity (total + it.weight) rest
      else greedySelect capacity total rest

/-- `sorted(items, key=value_density, reverse=True)` — a stable sort by
descending value density. -/
def sortByDensity (items : List KnapsackItem) : List KnapsackItem :=
  items.mergeSort (fun a b => decide (b.value_density ≤ a.value_density))

/-- `KnapsackSolver._solve_greedy`. -/
def solve_greedy (capacity : ℚ) (items : List KnapsackItem) : List String × ℚ × ℚ :=
  let sel := greedySelect capacity 0 (sortByDensity items)
  (sel.map KnapsackItem.id, sumValue sel, sumWeight sel)

/-- The `valid_items` filter of `KnapsackSolver.solve` (drop items heavier
than the whole capacity). -/
def validItems (c : ℚ) (items : List KnapsackItem) : List KnapsackItem :=
  items.filter (fun it => decide (it.weight ≤ c))

/-- `KnapsackSolver.solve`: empty input or nonpositive capacity yield
`([], 0.0, 0.0)`; otherwise the filtered items go to the requested
algorithm (`auto` picks DP for at most 50 valid items, else greedy). -/
def KnapsackSolver.solve (capacity : ℚ) (items : List KnapsackItem)
    (algorithm : KnapsackAlgorithm) : List String × ℚ × ℚ :=
  if items = [] ∨ capacity ≤ 0 then ([], 0, 0)
  else if validItems capacity items = [] then ([], 0, 0)
  else
    match algorithm with
    | .dp => solve_dp capacity (validItems capacity items)
    | .greedy => solve_greedy capacity (validItems capacity items)
    | .auto =>
        if (validItems capacity items).length ≤ 50 then
          solve_dp capacity (validItems capacity items)
        else solve_greedy capacity (validItems capacity items)

/-- Knapsack item used in witnesses and counterexamples: 0.55 kg, value 1. -/
def itemA : KnapsackItem := { id := "a", weight := 11/20, value := 1 }

/-- Second 0.55 kg item. -/
def itemB : KnapsackItem := { id := "b", weight := 11/20, value := 1 }

/-- Item with a small negative weight and tiny value. `int(-0.06 * 10) = 0`
in Python (truncation toward zero), matching `⌊-3/5⌋₊ = 0`; its value
density is divided by `max(0.01, -0.06) = 0.01`, putting it first in the
greedy order. -/
def itemNeg : KnapsackItem := { id := "n", weight := -3/50, value := 1/20 }

/-- Item of 0.501 kg, value 1 (discretizes to 5). -/
def itemHalf1 : KnapsackItem := { id := "c", weight := 501/1000, value := 1 }

/-- Second 0.501 kg item, value 1. -/
def itemHalf2 : KnapsackItem := { id := "d", weight := 501/1000, value := 1 }

lemma collect_bin_load_of_can (t : Truck) (i : String) (x : ℚ)
    (h : t.can_collect_bin x = true) :
    (t.collect_bin i x).2.load = t.load + x ∧
    (t.collect_bin i x).2.capacity = t.capacity := by
  unfold Truck.collect_bin
  simp only [h, if_true]
  split <;> simp

lemma can_collect_bin_le (t : Truck) (x : ℚ) (h : t.can_collect_bin x = true) :
    t.load + x ≤ t.capacity := by
  unfold Truck.can_collect_bin at h
  simp only [Bool.and_eq_true, decide_eq_true_eq] at h
  exact h.1

lemma collect_bin_not_can (t : Truck) (i : String) (x : ℚ)
    (h : t.can_collect_bin x = false) : t.collect_bin i x = (false, t) := by
  unfold Truck.collect_bin
  simp [h]

lemma applyOp_load_bounds (t : Truck) (op : TruckOp) (hop : op.nonneg)
    (h0 : 0 ≤ t.load) (h1 : t.load ≤ t.capacity) :
    0 ≤ (t.applyOp op).load ∧ (t.applyOp op).load ≤ (t.applyOp op).capacity := by
  cases op with
  | collect i x =>
    simp only [TruckOp.nonneg] at hop
    simp only [Truck.applyOp]
    cases hc : t.can_collect_bin x with
    | true =>
      obtain ⟨hl, hcap⟩ := collect_bin_load_of_can t i x hc
      rw [hl, hcap]
      exact ⟨by linarith, can_collect_bin_le t x hc⟩
    | false =>
      rw [collect_bin_not_can t i x hc]
      exact ⟨h0, h1⟩
  | empty =>
    simp only [Truck.applyOp, Truck.empty_load]
    exact ⟨le_refl 0, by linarith⟩

/-- C7 (amended): starting from a validly constructed truck, after any finite
sequence of `collect_bin`/`empty_load` operations in which every collect
amount is nonnegative, the load satisfies `0 ≤ load ≤ capacity`. (Without
the nonnegativity restriction the invariant fails; see the counterexample.) -/
theorem truck_load_invariant (t : Truck) (ops : List TruckOp)
    (hv : t.valid) (hops : ∀ op ∈ ops, op.nonneg) :
    0 ≤ (t.applyOps ops).load ∧ (t.applyOps ops).load ≤ (t.applyOps ops).capacity := by
  obtain ⟨-, h0, h1, -⟩ := hv
  unfold Truck.applyOps
  induction ops generalizing t with
  | nil => exact ⟨h0, h1⟩
  | cons op rest ih =>
    have hstep := applyOp_load_bounds t op (hops op (by simp)) h0 h1
    exact ih (t.applyOp op) (fun o ho => hops o (by simp [ho])) hstep.1 hstep.2

/-- C7 witness: the invariant theorem applied to a concrete truck and a
concrete collect-then-empty sequence. -/
theorem truck_load_invariant_witness :
    (truckW.valid ∧ ∀ op ∈ [TruckOp.collect "b" 30, TruckOp.empty], op.nonneg) ∧
    (0 ≤ (truckW.applyOps [TruckOp.collect "b" 30, TruckOp.empty]).load ∧
      (truckW.applyOps [TruckOp.collect "b" 30, TruckOp.empty]).load ≤
        (truckW.applyOps [TruckOp.collect "b" 30, TruckOp.empty]).capacity) :=
  ⟨⟨by norm_num [Truck.valid, truckW],
    by intro op hop
       simp only [List.mem_cons, List.not_mem_nil, or_false] at hop
       rcases hop with rfl | rfl <;> norm_num [TruckOp.nonneg]⟩,
   truck_load_invariant truckW [TruckOp.collect "b" 30, TruckOp.empty]
     (by norm_num [Truck.valid, truckW])
     (by intro op hop
         simp only [List.mem_cons, List.not_mem_nil, or_false] at hop
         rcases hop with rfl | rfl <;> norm_num [TruckOp.nonneg])⟩

/-- C7 counterexample: `collect_bin` accepts a negative amount (the code only
checks `load + bin_load <= capacity`), driving the load below zero, so the
claim as stated — over every sequence of collect/empty operations — fails. -/
theorem truck_load_negative_cex :
    (truckW.applyOps [TruckOp.collect "b" (-5)]).load = -5 ∧
    ¬(0 ≤ (truckW.applyOps [TruckOp.collect "b" (-5)]).load) := by
  constructor <;>
    norm_num +decide [Truck.applyOps, Truck.applyOp, Truck.collect_bin,
      Truck.can_collect_bin, Truck.is_available, Truck.needs_maintenance, truckW]

/-- C10: `collect_bin` returns `True` exactly when `can_collect_bin` held
beforehand, and when it returns `False` the truck is unchanged in every
field. -/
theorem collect_bin_false_no_mutation (t : Truck) (i : String) (x : ℚ) :
    (t.collect_bin i x).1 = t.can_collect_bin x ∧
    ((t.collect_bin i x).1 = false → (t.collect_bin i x).2 = t) := by
  unfold Truck.collect_bin
  cases hc : t.can_collect_bin x <;> simp [hc]

/-- C1 (amended): the realizable status transitions. `active→full` when the
fill update reaches 100; `active→collected` on a successful `collect` (fill
reset, amount returned); `collected→active` on reset. But a bin whose status
is `full` is never collected: `Bin.collect` returns `0.0` leaving it
unchanged, and the engine's collection step leaves truck and bin unchanged
and emits nothing. -/
theorem bin_status_transition_cycle :
    (∀ (b : Bin) (m : ℚ), b.status = .active →
        100 ≤ (b.update_fill_level m).fill_level →
        (b.update_fill_level m).status = .full) ∧
    (∀ b : Bin, b.status = .active →
        b.collect.1 = (b.fill_level / 100) * b.capacity ∧
        b.collect.2.status = .collected ∧ b.collect.2.fill_level = 0) ∧
    (∀ b : Bin, b.status = .collected → b.reset_status.status = .active) ∧
    (∀ b : Bin, b.status = .full → b.collect = (0, b)) ∧
    (∀ (t : Truck) (b : Bin), b.status = .full →
        handle_bin_collection t b = (t, b, none)) := by
  refine ⟨?_, ?_, ?_, ?_, ?_⟩
  · intro b m hb hf
    unfold Bin.update_fill_level at *
    simp only [hb, ne_eq, not_true_eq_false, if_false, ite_false] at *
    simp only [if_pos hf]
  · intro b hb
    unfold Bin.collect
    simp [hb]
  · intro b hb
    unfold Bin.reset_status
    simp [hb]
  · intro b hb
    unfold Bin.collect
    simp [hb]
  · intro t b hb
    unfold handle_bin_collection
    simp [hb]

/-- C1 witness: each transition of the amended cycle at a concrete input
(60 minutes at 5 kg/h on a 100 kg bin raise fill 95 to 100). -/
theorem bin_status_transition_cycle_witness :
    ((binW.update_fill_level 60).status = .full) ∧
    (binW.collect.1 = (binW.fill_level / 100) * binW.capacity ∧
      binW.collect.2.status = .collected ∧ binW.collect.2.fill_level = 0) ∧
    (binCollectedW.reset_status.status = .active) ∧
    (binFullW.collect = (0, binFullW)) ∧
    (handle_bin_collection truckW binFullW = (truckW, binFullW, none)) :=
  ⟨bin_status_transition_cycle.1 binW 60 rfl
      (by norm_num +decide [Bin.update_fill_level, binW]),
   bin_status_transition_cycle.2.1 binW rfl,
   bin_status_transition_cycle.2.2.1 binCollectedW rfl,
   bin_status_transition_cycle.2.2.2.1 binFullW rfl,
   bin_status_transition_cycle.2.2.2.2 truckW binFullW rfl⟩

/-- C1 counterexample: a bin whose status is `full` (fill 100) picked up by
an empty available truck is NOT collected: the engine's collection step
returns truck and bin unchanged (status still `full`, fill still 100) and
emits no collected amount, contradicting the claimed `full→collected`
transition with fill reset and amount returned. -/
theorem bin_full_pickup_unchanged_cex :
    handle_bin_collection truckW binFullW = (truckW, binFullW, none) ∧
    binFullW.status = .full ∧ binFullW.fill_level = 100 ∧
    BinStatus.full ≠ BinStatus.collected := by
  refine ⟨?_, rfl, rfl, by decide⟩
  norm_num +decide [handle_bin_collection, binFullW, binW, truckW, Truck.is_full]

/-- C5 (amended): the engine's collection step is gated and all-or-nothing.
If the bin is not active, or the truck's load is already at or above 95% of
its capacity (`is_full`) — even when the whole bin load would still fit —
nothing is transferred and truck and bin are unchanged. Past those guards,
the full bin load is transferred when it fits within the truck's capacity
with the truck available (`can_collect_bin`), and nothing at all is
transferred when it does not. A partial `min(bin load, remaining capacity)`
transfer never occurs. -/
theorem collection_all_or_nothing :
    (∀ (t : Truck) (b : Bin), b.status ≠ .active ∨ t.is_full = true →
      handle_bin_collection t b = (t, b, none)) ∧
    (∀ (t : Truck) (b : Bin), b.status = .active → t.is_full = false →
      t.can_collect_bin ((b.fill_level / 100) * b.capacity) = true →
      (handle_bin_collection t b).1.load = t.load + (b.fill_level / 100) * b.capacity ∧
      (handle_bin_collection t b).2.2 = some ((b.fill_level / 100) * b.capacity)) ∧
    (∀ (t : Truck) (b : Bin), b.status = .active → t.is_full = false →
      t.can_collect_bin ((b.fill_level / 100) * b.capacity) = false →
      handle_bin_collection t b = (t, b, none)) := by
  refine ⟨?_, ?_, ?_⟩
  · intro t b h
    rcases h with h | h <;> simp [handle_bin_collection, h]
  · intro t b hb hf hc
    unfold handle_bin_collection
    have hcol : b.collect.1 = (b.fill_level / 100) * b.capacity := by
      unfold Bin.collect; simp [hb]
    simp only [hb, hf, ne_eq, not_true_eq_false, false_or, Bool.false_eq_true, if_false]
    simp only [hc, if_true, hcol]
    exact ⟨(collect_bin_load_of_can t b.id _ (hcol ▸ hc)).1, trivial⟩
  · intro t b hb hf hc
    unfold handle_bin_collection
    simp [hb, hf, hc]

/-- C5 witness: the gated all-or-nothing theorem at concrete inputs — the
96/100 en-route truck (available, and the 2 kg bin fits its 4 kg of
remaining room) takes nothing because of the `is_full` guard, an empty
truck takes the whole 50 kg, and the 90/100 truck takes nothing. -/
theorem collection_all_or_nothing_witness :
    (truck96W.is_full = true ∧ bin2W.status = .active ∧
      truck96W.can_collect_bin ((bin2W.fill_level / 100) * bin2W.capacity) = true ∧
      bin50W.status = .active ∧ truckW.is_full = false ∧
      truckW.can_collect_bin ((bin50W.fill_level / 100) * bin50W.capacity) = true ∧
      truck90W.is_full = false ∧
      truck90W.can_collect_bin ((bin50W.fill_level / 100) * bin50W.capacity) = false) ∧
    (handle_bin_collection truck96W bin2W = (truck96W, bin2W, none)) ∧
    ((handle_bin_collection truckW bin50W).1.load =
        truckW.load + (bin50W.fill_level / 100) * bin50W.capacity ∧
      (handle_bin_collection truckW bin50W).2.2 =
        some ((bin50W.fill_level / 100) * bin50W.capacity)) ∧
    (handle_bin_collection truck90W bin50W = (truck90W, bin50W, none)) :=
  ⟨⟨by norm_num [Truck.is_full, truck96W],
    rfl,
    by norm_num +decide [Truck.can_collect_bin, Truck.is_available,
        Truck.needs_maintenance, truck96W, bin2W],
    rfl,
    by norm_num [Truck.is_full, truckW],
    by norm_num +decide [Truck.can_collect_bin, Truck.is_available,
        Truck.needs_maintenance, truckW, bin50W],
    by norm_num [Truck.is_full, truck90W],
    by norm_num +decide [Truck.can_collect_bin, Truck.is_available,
        Truck.needs_maintenance, truck90W, bin50W]⟩,
   collection_all_or_nothing.1 truck96W bin2W
     (Or.inr (by norm_num [Truck.is_full, truck96W])),
   collection_all_or_nothing.2.1 truckW bin50W rfl
     (by norm_num [Truck.is_full, truckW])
     (by norm_num +decide [Truck.can_collect_bin, Truck.is_available,
        Truck.needs_maintenance, truckW, bin50W]),
   collection_all_or_nothing.2.2 truck90W bin50W rfl
     (by norm_num [Truck.is_full, truck90W])
     (by norm_num +decide [Truck.can_collect_bin, Truck.is_available,
        Truck.needs_maintenance, truck90W, bin50W])⟩

/-- C5 counterexample: truck with remaining capacity 10 reaching a 50 kg bin.
The claim demands a partial transfer of `min(50, 10) = 10`; the code
transfers nothing — the truck's load stays 90 and the bin stays at fill 50. -/
theorem collection_no_partial_transfer_cex :
    handle_bin_collection truck90W bin50W = (truck90W, bin50W, none) ∧
    (truck90W.load = 90) ∧
    min ((bin50W.fill_level / 100) * bin50W.capacity) (truck90W.capacity - truck90W.load) = 10 ∧
    (10 : ℚ) ≠ 0 := by
  refine ⟨?_, rfl, by norm_num [bin50W, truck90W], by norm_num⟩
  norm_num +decide [handle_bin_collection, Truck.is_full, Truck.can_collect_bin,
    Truck.is_available, Truck.needs_maintenance, truck90W, bin50W]

lemma sumWeight_nil : sumWeight [] = 0 := rfl

lemma sumWeight_cons (it : KnapsackItem) (l : List KnapsackItem) :
    sumWeight (it :: l) = it.weight + sumWeight l := by
  simp [sumWeight]

lemma sumValue_nil : sumValue [] = 0 := rfl

lemma sumValue_cons (it : KnapsackItem) (l : List KnapsackItem) :
    sumValue (it :: l) = it.value + sumValue l := by
  simp [sumValue]

lemma sumIntWeight_nil : sumIntWeight [] = 0 := rfl

lemma sumIntWeight_cons (it : KnapsackItem) (l : List KnapsackItem) :
    sumIntWeight (it :: l) = intWeight it + sumIntWeight l := by
  simp [sumIntWeight]

lemma greedySelect_sublist (c : ℚ) :
    ∀ (l : List KnapsackItem) (total : ℚ), (greedySelect c total l).Sublist l := by
  intro l
  induction l with
  | nil => intro total; simp [greedySelect]
  | cons it rest ih =>
    intro total
    unfold greedySelect
    split
    · exact (ih _).cons₂ it
    · exact (ih _).cons it

lemma greedySelect_weight (c : ℚ) :
    ∀ (l : List KnapsackItem) (total : ℚ),
      total ≤ c → total + sumWeight (greedySelect c total l) ≤ c := by
  intro l
  induction l with
  | nil => intro total htot; simpa [greedySelect, sumWeight_nil] using htot
  | cons it rest ih =>
    intro total htot
    unfold greedySelect
    split
    · next h =>
      have := ih (total + it.weight) h
      rw [sumWeight_cons]
      linarith
    · exact ih total htot

lemma dpMax_nonneg : ∀ (l : List KnapsackItem) (w : ℕ), 0 ≤ dpMax l w := by
  intro l
  induction l with
  | nil => intro w; simp [dpMax]
  | cons it rest ih =>
    intro w
    unfold dpMax
    split
    · exact le_trans (ih w) (le_max_left _ _)
    · exact ih w

lemma dpMax_le_cons (it : KnapsackItem) (l : List KnapsackItem) (w : ℕ) :
    dpMax l w ≤ dpMax (it :: l) w := by
  simp only [dpMax]
  split
  · exact le_max_left _ _
  · exact le_refl _

lemma dpMax_cons_of_not_fit (it : KnapsackItem) (l : List KnapsackItem) (w : ℕ)
    (h : ¬ intWeight it ≤ w) : dpMax (it :: l) w = dpMax l w := by
  simp only [dpMax]
  rw [if_neg h]

lemma sumValue_le_dpMax {S l : List KnapsackItem} (h : S.Sublist l) :
    ∀ w : ℕ, sumIntWeight S ≤ w → sumValue S ≤ dpMax l w := by
  induction h with
  | slnil =>
    intro w _
    simp [sumValue_nil, dpMax]
  | cons a _ ih =>
    intro w hw
    exact le_trans (ih w hw) (dpMax_le_cons a _ w)
  | @cons₂ S1 l1 a h ih =>
    intro w hw
    rw [sumIntWeight_cons] at hw
    have ha : intWeight a ≤ w := le_trans (Nat.le_add_right _ _) hw
    have h2 : sumIntWeight S1 ≤ w - intWeight a := by omega
    have h3 := ih (w - intWeight a) h2
    simp only [dpMax]
    rw [if_pos ha, sumValue_cons]
    have h4 : a.value + sumValue S1 ≤ dpMax l1 (w - intWeight a) + a.value := by
      linarith
    exact le_trans h4 (le_max_right _ _)

lemma sumIntWeight_cast_le (l : List KnapsackItem)
    (hw : ∀ it ∈ l, 0 ≤ it.weight) :
    (sumIntWeight l : ℚ) ≤ sumWeight l * 10 := by
  induction l with
  | nil => simp [sumIntWeight_nil, sumWeight_nil]
  | cons it rest ih =>
    have h1 : (intWeight it : ℚ) ≤ it.weight * 10 := by
      have hnn : (0:ℚ) ≤ it.weight * 10 :=
        mul_nonneg (hw it (by simp)) (by norm_num)
      simpa [intWeight] using Nat.floor_le hnn
    have h2 := ih (fun x hx => hw x (by simp [hx]))
    rw [sumIntWeight_cons, sumWeight_cons]
    push_cast
    linarith

lemma sumIntWeight_le_intCapacity (l : List KnapsackItem) (c : ℚ)
    (hw : ∀ it ∈ l, 0 ≤ it.weight) (h : sumWeight l ≤ c) :
    sumIntWeight l ≤ intCapacity c := by
  unfold intCapacity
  apply Nat.le_floor
  calc (sumIntWeight l : ℚ) ≤ sumWeight l * 10 := sumIntWeight_cast_le l hw
    _ ≤ c * 10 := by linarith

lemma dpSelect_sumIntWeight_le :
    ∀ (l : List KnapsackItem) (w : ℕ), sumIntWeight (dpSelect l w) ≤ w := by
  intro l
  induction l with
  | nil => intro w; simp [dpSelect, sumIntWeight_nil]
  | cons it rest ih =>
    intro w
    unfold dpSelect
    split
    · next hne =>
      have hiw : intWeight it ≤ w := by
        by_contra hgt
        exact hne (dpMax_cons_of_not_fit it rest w hgt)
      have := ih (w - intWeight it)
      rw [sumIntWeight_cons]
      omega
    · exact ih w

lemma sortByDensity_perm (l : List KnapsackItem) : (sortByDensity l).Perm l :=
  List.mergeSort_perm l _

/-- C3 (amended): the greedy solver's selection never exceeds the capacity
in true weight, while the DP solver guarantees only the discretized bound —
the sum of the 0.1 kg-truncated weights of its selection stays within the
0.1 kg-truncated capacity. (Its *true* total weight can exceed the
capacity; see the counterexample.) -/
theorem knapsack_weight_bounds (c : ℚ) (items : List KnapsackItem) (h0 : 0 ≤ c) :
    (KnapsackSolver.solve c items .greedy).2.2 ≤ c ∧
    sumIntWeight (dpSelect (validItems c items).reverse (intCapacity c)) ≤
      intCapacity c := by
  constructor
  · unfold KnapsackSolver.solve
    split
    · simpa using h0
    · split
      · simpa using h0
      · show (solve_greedy c (validItems c items)).2.2 ≤ c
        unfold solve_greedy
        have := greedySelect_weight c (sortByDensity (validItems c items)) 0 h0
        simpa using this
  · exact dpSelect_sumIntWeight_le _ _

/-- C3 witness: the weight-bound theorem at a concrete capacity and item
list. -/
theorem knapsack_weight_bounds_witness :
    ((0:ℚ) ≤ 1) ∧
    ((KnapsackSolver.solve 1 [itemA] .greedy).2.2 ≤ 1 ∧
      sumIntWeight (dpSelect (validItems 1 [itemA]).reverse (intCapacity 1)) ≤
        intCapacity 1) :=
  ⟨by norm_num, knapsack_weight_bounds 1 [itemA] (by norm_num)⟩

/-- C3 counterexample: two 0.55 kg items at capacity 1.0 kg. DP discretizes
both weights to 5 (0.5 kg) and the capacity to 10, selects both, and
reports a true total weight of 1.1 kg — the selection's true weight exceeds
the available capacity. -/
theorem knapsack_dp_exceeds_capacity_cex :
    (KnapsackSolver.solve 1 [itemA, itemB] .dp).2.2 = 11/10 ∧
    ¬((11/10 : ℚ) ≤ 1) := by
  have hwA : itemA.weight = 11/20 := rfl
  have hwB : itemB.weight = 11/20 := rfl
  have hvA : itemA.value = 1 := rfl
  have hvB : itemB.value = 1 := rfl
  have hA : intWeight itemA = 5 := by
    rw [intWeight, hwA, Nat.floor_eq_iff] <;> norm_num
  have hB : intWeight itemB = 5 := by
    rw [intWeight, hwB, Nat.floor_eq_iff] <;> norm_num
  have hC : intCapacity 1 = 10 := by
    rw [intCapacity, Nat.floor_eq_iff] <;> norm_num
  have hvalid : validItems 1 [itemA, itemB] = [itemA, itemB] := by
    rw [validItems, List.filter_cons, List.filter_cons, List.filter_nil]
    norm_num [hwA, hwB]
  have hm0 : ∀ w, dpMax [] w = 0 := fun _ => rfl
  have hmA10 : dpMax [itemA] 10 = 1 := by
    simp only [dpMax, hA, hvA]
    norm_num [max_def]
  have hmA5 : dpMax [itemA] 5 = 1 := by
    simp only [dpMax, hA, hvA]
    norm_num [max_def]
  have hmBA10 : dpMax [itemB, itemA] 10 = 2 := by
    simp only [dpMax, hA, hB, hvA, hvB]
    norm_num [max_def]
  have hcond5 : dpMax [itemA] 5 ≠ dpMax [] 5 := by
    rw [hmA5, hm0]
    norm_num
  have hsA5 : dpSelect [itemA] 5 = [itemA] := by
    simp only [dpSelect]
    rw [if_pos hcond5]
  have hcond10 : dpMax [itemB, itemA] 10 ≠ dpMax [itemA] 10 := by
    rw [hmBA10, hmA10]
    norm_num
  have hsel : dpSelect [itemB, itemA] 10 = [itemB, itemA] := by
    simp only [dpSelect]
    rw [if_pos hcond10, hB]
    norm_num
    exact hcond5
  constructor
  · show (KnapsackSolver.solve 1 [itemA, itemB] .dp).2.2 = 11/10
    rw [KnapsackSolver.solve,
      if_neg (by push_neg; exact ⟨by simp, by norm_num⟩),
      if_neg (by rw [hvalid]; simp)]
    show (solve_dp 1 (validItems 1 [itemA, itemB])).2.2 = 11/10
    rw [solve_dp]
    show sumWeight (dpSelect (validItems 1 [itemA, itemB]).reverse (intCapacity 1)) = 11/10
    rw [hvalid, hC]
    show sumWeight (dpSelect [itemB, itemA] 10) = 11/10
    rw [hsel, sumWeight_cons, sumWeight_cons, sumWeight_nil, hwA, hwB]
    norm_num
  · norm_num

/-- C4 (amended): on the same capacity and item list, *provided every item
weight is nonnegative* (the form the callers construct: weight =
fill/100 × capacity ≥ 0), the total value reported by the greedy solve
never exceeds the total value reported by the exact-DP solve. Without that
restriction the claim is false: a small negative-weight item makes room in
the greedy scan while discretizing to weight 0 in the DP — see the
counterexample. -/
theorem knapsack_greedy_value_le_dp (c : ℚ) (items : List KnapsackItem)
    (hw : ∀ it ∈ items, 0 ≤ it.weight) :
    (KnapsackSolver.solve c items .greedy).2.1 ≤
      (KnapsackSolver.solve c items .dp).2.1 := by
  unfold KnapsackSolver.solve
  split
  · simp
  · split
    · simp
    · next h1 h2 =>
      have hc : 0 ≤ c := by
        rcases not_or.mp h1 with ⟨-, hle⟩
        exact le_of_lt (lt_of_not_le hle)
      show (solve_greedy c (validItems c items)).2.1 ≤
        (solve_dp c (validItems c items)).2.1
      unfold solve_greedy solve_dp
      show sumValue (greedySelect c 0 (sortByDensity (validItems c items))) ≤
        dpMax (validItems c items).reverse (intCapacity c)
      set valid := validItems c items with hvalid
      set G := greedySelect c 0 (sortByDensity valid) with hG
      have hwv : ∀ it ∈ valid, 0 ≤ it.weight := by
        intro it hit
        exact hw it (List.mem_of_mem_filter hit)
      have hG_sub : G.Sublist (sortByDensity valid) :=
        greedySelect_sublist c (sortByDensity valid) 0
      have hG_w : sumWeight G ≤ c := by
        have := greedySelect_weight c (sortByDensity valid) 0 hc
        linarith
      have hG_wnn : ∀ it ∈ G, 0 ≤ it.weight := by
        intro it hit
        exact hwv it ((sortByDensity_perm valid).mem_iff.mp (hG_sub.subset hit))
      have hG_iw : sumIntWeight G ≤ intCapacity c :=
        sumIntWeight_le_intCapacity G c hG_wnn hG_w
      have hsp : G.Subperm valid.reverse :=
        hG_sub.subperm.trans
          (((sortByDensity_perm valid).trans (valid.reverse_perm).symm).subperm)
      obtain ⟨S, hSG, hSsub⟩ := hsp
      have hSv : sumValue S = sumValue G := (hSG.map KnapsackItem.value).sum_eq
      have hSw : sumIntWeight S = sumIntWeight G := (hSG.map intWeight).sum_eq
      calc sumValue G = sumValue S := hSv.symm
        _ ≤ dpMax valid.reverse (intCapacity c) :=
            sumValue_le_dpMax hSsub _ (by rw [hSw]; exact hG_iw)

/-- C4 witness: greedy value at most DP value at a concrete input. -/
theorem knapsack_greedy_value_le_dp_witness :
    (∀ it ∈ [itemA, itemB], (0:ℚ) ≤ it.weight) ∧
    ((KnapsackSolver.solve 1 [itemA, itemB] .greedy).2.1 ≤
      (KnapsackSolver.solve 1 [itemA, itemB] .dp).2.1) :=
  ⟨by intro it hit
      simp only [List.mem_cons, List.not_mem_nil, or_false] at hit
      rcases hit with rfl | rfl <;> norm_num [itemA, itemB],
   knapsack_greedy_value_le_dp 1 [itemA, itemB]
     (by intro it hit
         simp only [List.mem_cons, List.not_mem_nil, or_false] at hit
         rcases hit with rfl | rfl <;> norm_num [itemA, itemB])⟩

/-- C4 counterexample: capacity 0.95 with items (weight −0.06, value 0.05),
(0.501, value 1), (0.501, value 1). Neither Python algorithm raises:
`int(-0.6)` is 0. Greedy sorts the negative item first (density
0.05/max(0.01, −0.06) = 5), takes all three (running totals −0.06, 0.441,
0.942 ≤ 0.95) and reports value 2.05; DP discretizes the weights to
0, 5, 5 against capacity 9, fits at most one of the 0.501 kg items and
reports 1.05 — the greedy value strictly exceeds the DP value. -/
theorem knapsack_greedy_exceeds_dp_cex :
    (KnapsackSolver.solve (19/20) [itemNeg, itemHalf1, itemHalf2] .greedy).2.1 = 41/20 ∧
    (KnapsackSolver.solve (19/20) [itemNeg, itemHalf1, itemHalf2] .dp).2.1 = 21/20 ∧
    ¬((41:ℚ)/20 ≤ 21/20) := by
  have hwN : itemNeg.weight = -3/50 := rfl
  have hwC : itemHalf1.weight = 501/1000 := rfl
  have hwD : itemHalf2.weight = 501/1000 := rfl
  have hvN : itemNeg.value = 1/20 := rfl
  have hvC : itemHalf1.value = 1 := rfl
  have hvD : itemHalf2.value = 1 := rfl
  have hvalid : validItems (19/20) [itemNeg, itemHalf1, itemHalf2] =
      [itemNeg, itemHalf1, itemHalf2] := by
    rw [validItems, List.filter_cons, List.filter_cons, List.filter_cons, List.filter_nil]
    norm_num [hwN, hwC, hwD]
  have hne : ¬([itemNeg, itemHalf1, itemHalf2] = [] ∨ (19:ℚ)/20 ≤ 0) := by
    push_neg
    exact ⟨by simp, by norm_num⟩
  have hvne : ¬(validItems (19/20) [itemNeg, itemHalf1, itemHalf2] = []) := by
    rw [hvalid]
    simp
  have hdN : itemNeg.value_density = 5 := by
    rw [KnapsackItem.value_density, hvN, hwN]
    norm_num
  have hdC : itemHalf1.value_density = 1000/501 := by
    rw [KnapsackItem.value_density, hvC, hwC]
    norm_num
  have hdD : itemHalf2.value_density = 1000/501 := by
    rw [KnapsackItem.value_density, hvD, hwD]
    norm_num
  have hsort : sortByDensity [itemNeg, itemHalf1, itemHalf2] =
      [itemNeg, itemHalf1, itemHalf2] := by
    rw [sortByDensity]
    norm_num [List.mergeSort, List.merge, hdN, hdC, hdD]
  have hgsel : greedySelect (19/20) 0 [itemNeg, itemHalf1, itemHalf2] =
      [itemNeg, itemHalf1, itemHalf2] := by
    norm_num [greedySelect, hwN, hwC, hwD]
  have hiN : intWeight itemNeg = 0 := by
    rw [intWeight, hwN, Nat.floor_eq_zero]
    norm_num
  have hiC : intWeight itemHalf1 = 5 := by
    rw [intWeight, hwC, Nat.floor_eq_iff] <;> norm_num
  have hiD : intWeight itemHalf2 = 5 := by
    rw [intWeight, hwD, Nat.floor_eq_iff] <;> norm_num
  have hiCap : intCapacity (19/20) = 9 := by
    rw [intCapacity, Nat.floor_eq_iff] <;> norm_num
  have hdp : dpMax [itemHalf2, itemHalf1, itemNeg] 9 = 21/20 := by
    simp only [dpMax, hiN, hiC, hiD, hvN, hvC, hvD]
    norm_num [max_def]
  refine ⟨?_, ?_, by norm_num⟩
  · rw [KnapsackSolver.solve, if_neg hne, if_neg hvne]
    show (solve_greedy (19/20)
      (validItems (19/20) [itemNeg, itemHalf1, itemHalf2])).2.1 = 41/20
    rw [solve_greedy]
    show sumValue (greedySelect (19/20) 0
      (sortByDensity (validItems (19/20) [itemNeg, itemHalf1, itemHalf2]))) = 41/20
    rw [hvalid, hsort, hgsel, sumValue_cons, sumValue_cons, sumValue_cons,
      sumValue_nil, hvN, hvC, hvD]
    norm_num
  · rw [KnapsackSolver.solve, if_neg hne, if_neg hvne]
    show (solve_dp (19/20)
      (validItems (19/20) [itemNeg, itemHalf1, itemHalf2])).2.1 = 21/20
    rw [solve_dp]
    show dpMax (validItems (19/20)
      [itemNeg, itemHalf1, itemHalf2]).reverse (intCapacity (19/20)) = 21/20
    rw [hvalid, hiCap]
    show dpMax [itemHalf2, itemHalf1, itemNeg] 9 = 21/20
    exact hdp

/-- C9 (amended): for nonpositive capacity the solver returns the same
`([], 0.0, 0.0)` triple it returns for an empty candidate set — the two
cases are not distinguishable from the result. -/
theorem knapsack_no_solution_indistinct (c c' : ℚ) (items : List KnapsackItem)
    (alg alg' : KnapsackAlgorithm) (h : c ≤ 0) :
    KnapsackSolver.solve c items alg = ([], 0, 0) ∧
    KnapsackSolver.solve c' [] alg' = ([], 0, 0) := by
  constructor
  · unfold KnapsackSolver.solve
    rw [if_pos (Or.inr h)]
  · unfold KnapsackSolver.solve
    rw [if_pos (Or.inl rfl)]

/-- C9 witness: the indistinguishability theorem at concrete inputs. -/
theorem knapsack_no_solution_indistinct_witness :
    ((0:ℚ) ≤ 0) ∧
    (KnapsackSolver.solve 0 [itemA] .dp = ([], 0, 0) ∧
      KnapsackSolver.solve 5 [] .greedy = ([], 0, 0)) :=
  ⟨by norm_num, knapsack_no_solution_indistinct 0 5 [itemA] .dp .greedy (by norm_num)⟩

/-- C9 counterexample: zero capacity with a non-empty candidate set and an
empty candidate set produce the *same* result `([], 0.0, 0.0)` — there is
no distinguishable "no solution" value, contradicting the claim that the
two results differ for some such pair. -/
theorem knapsack_zero_capacity_eq_empty_cex :
    KnapsackSolver.solve 0 [itemA] .dp = ([], 0, 0) ∧
    KnapsackSolver.solve 0 [] .dp = ([], 0, 0) ∧
    KnapsackSolver.solve 0 [itemA] .dp = KnapsackSolver.solve 0 [] .dp := by
  have h1 : KnapsackSolver.solve 0 [itemA] .dp = ([], 0, 0) := by
    unfold KnapsackSolver.solve
    rw [if_pos (Or.inr (le_refl 0))]
  have h2 : KnapsackSolver.solve 0 [] .dp = ([], 0, 0) := by
    unfold KnapsackSolver.solve
    rw [if_pos (Or.inl rfl)]
  exact ⟨h1, h2, h1.trans h2.symm⟩

/-- C2: `current_multiplier` is not total. On a fresh auto-mode service
(defaults: morning rush 7–9, update interval 5) queried at simulated minute
10 with clock reading 12:00 on a Monday, the recomputation runs and
`_calculate_time_based_multiplier` raises `UnboundLocalError` (the evening
rush-hour locals are only bound inside the morning-rush branch), so no
value in [1.0, 2.0] is returned — for every rush-intensity curve and every
noise draw. -/
theorem traffic_multiplier_raises_at_noon (f : ℚ → ℚ → ℚ → ℚ) (noise : ℚ) :
    current_multiplier f trafficAutoW 10 12 0 0 noise = none := by
  rw [current_multiplier]
  show (update_auto_multiplier f trafficAutoW 10 12 0 0 noise).map _ = none
  rw [update_auto_multiplier,
    if_neg (by norm_num [trafficAutoW]),
    show calculate_time_based_multiplier f trafficAutoW 12 0 0 = none from by
      rw [calculate_time_based_multiplier]
      norm_num [trafficAutoW]]
  rfl

/-- C6 (amended): one `move_towards` step of an en-route truck moves it
along the straight segment toward the destination by
`min(5 · (speed/m) · (Δ/60), d)` kilometres — the source's 5× "BOOSTED"
movement — while the fuel consumed and the odometer use the *unboosted*
distance `min((speed/m) · (Δ/60), d)`; the destination is reached exactly
when `d ≤ 5 · (speed/m) · (Δ/60)`. So fuel corresponds to one fifth of the
distance actually covered (until the clamp), not to the distance covered. -/
theorem move_towards_boosted (t : Truck) (dest : ℚ × ℚ) (dt m d : ℚ)
    (hs : t.status ≠ .offline ∧ t.status ≠ .maintenance)
    (hd : 1/100 ≤ d) (_hm : 0 < m) :
    (t.move_towards dest dt m d).1.fuel_level =
      max 0 (t.fuel_level - min (t.speed / m * (dt / 60)) d * t.fuel_consumption) ∧
    (t.move_towards dest dt m d).1.total_distance_traveled =
      t.total_distance_traveled + min (t.speed / m * (dt / 60)) d ∧
    (t.move_towards dest dt m d).1.location.1 =
      t.location.1 + (dest.1 - t.location.1) *
        (min (5 * (t.speed / m * (dt / 60))) d / d) ∧
    (t.move_towards dest dt m d).1.location.2 =
      t.location.2 + (dest.2 - t.location.2) *
        (min (5 * (t.speed / m * (dt / 60))) d / d) ∧
    ((t.move_towards dest dt m d).2 = true ↔ d ≤ 5 * (t.speed / m * (dt / 60))) := by
  have hd0 : 0 < d := lt_of_lt_of_le (by norm_num) hd
  have hne : d ≠ 0 := ne_of_gt hd0
  rw [Truck.move_towards, if_neg (not_or.mpr ⟨hs.1, hs.2⟩), if_neg (not_lt.mpr hd)]
  by_cases hr : d ≤ t.speed / m * (dt / 60) * 5
  · rw [if_pos hr]
    have hmin : min (5 * (t.speed / m * (dt / 60))) d = d := by
      rw [min_eq_right]
      linarith
    refine ⟨rfl, rfl, ?_, ?_, ?_⟩
    · rw [hmin, div_self hne]
      ring
    · rw [hmin, div_self hne]
      ring
    · constructor
      · intro _
        linarith
      · intro _
        rfl
  · rw [if_neg hr]
    have hlt : t.speed / m * (dt / 60) * 5 < d := lt_of_not_le hr
    have hmin : min (5 * (t.speed / m * (dt / 60))) d = 5 * (t.speed / m * (dt / 60)) := by
      rw [min_eq_left]
      linarith
    refine ⟨rfl, rfl, ?_, ?_, ?_⟩
    · rw [hmin]
      ring
    · rw [hmin]
      ring
    · constructor
      · intro h
        exact absurd h (by norm_num)
      · intro h
        exact absurd h (by linarith)

/-- C6 witness: the amended movement theorem at a concrete input (speed 50,
multiplier 1, 60 minutes, 100 km to go: boosted movement 250 km clamps to
100 and reaches; fuel and odometer use 50 km). -/
theorem move_towards_boosted_witness :
    (truckEnRouteW.status ≠ .offline ∧ truckEnRouteW.status ≠ .maintenance) ∧
    ((1:ℚ)/100 ≤ 100) ∧ ((0:ℚ) < 1) ∧
    ((truckEnRouteW.move_towards (3, 4) 60 1 100).1.fuel_level =
      max 0 (truckEnRouteW.fuel_level -
        min (truckEnRouteW.speed / 1 * (60 / 60)) 100 * truckEnRouteW.fuel_consumption) ∧
    (truckEnRouteW.move_towards (3, 4) 60 1 100).1.total_distance_traveled =
      truckEnRouteW.total_distance_traveled + min (truckEnRouteW.speed / 1 * (60 / 60)) 100 ∧
    (truckEnRouteW.move_towards (3, 4) 60 1 100).1.location.1 =
      truckEnRouteW.location.1 + ((3:ℚ) - truckEnRouteW.location.1) *
        (min (5 * (truckEnRouteW.speed / 1 * (60 / 60))) 100 / 100) ∧
    (truckEnRouteW.move_towards (3, 4) 60 1 100).1.location.2 =
      truckEnRouteW.location.2 + ((4:ℚ) - truckEnRouteW.location.2) *
        (min (5 * (truckEnRouteW.speed / 1 * (60 / 60))) 100 / 100) ∧
    ((truckEnRouteW.move_towards (3, 4) 60 1 100).2 = true ↔
      (100:ℚ) ≤ 5 * (truckEnRouteW.speed / 1 * (60 / 60)))) :=
  ⟨⟨by decide, by decide⟩, by norm_num, by norm_num,
   move_towards_boosted truckEnRouteW (3, 4) 60 1 100 ⟨by decide, by decide⟩
     (by norm_num) (by norm_num)⟩

/-- C6 counterexample: at 50 km/h, multiplier 1 and Δ = 60 minutes, the
claimed coverage is `min(50, 100) = 50` km, so a destination 100 km away
must not be reached in one step; the code reaches it (5× boost), while
consuming fuel for only 50 km (0.1 L/km · 50 km = 5, fuel 100 → 95). -/
theorem move_towards_reaches_too_far_cex :
    (truckEnRouteW.move_towards (3, 4) 60 1 100).1.location = (3, 4) ∧
    (truckEnRouteW.move_towards (3, 4) 60 1 100).2 = true ∧
    (truckEnRouteW.move_towards (3, 4) 60 1 100).1.fuel_level = 95 ∧
    min (truckEnRouteW.speed / 1 * (60 / 60)) 100 = 50 ∧
    ¬((100:ℚ) ≤ 50) := by
  refine ⟨?_, ?_, ?_, by norm_num [truckEnRouteW], by norm_num⟩ <;>
    norm_num +decide [Truck.move_towards, truckEnRouteW, Prod.ext_iff]

/-- C8 (amended): whenever the rate limit passes, the set of bins for which
incremental insertion is attempted is the set of *all currently urgent*
bins — every active bin at or above its threshold — regardless of any
earlier check: the service records no previous urgency set, so a bin urgent
at the previous check is attempted again. -/
theorem radar_attempts_all_urgent (threshold_for : Bin → ℚ)
    (s : OptimizationService) (now : ℚ) (trucks : List Truck) (bins : List Bin)
    (h : s.radar_check_interval_minutes ≤ now - s.last_radar_check) :
    (maybe_reoptimize threshold_for s now trucks bins).2.2.2 =
      find_urgent_bins threshold_for bins ∧
    ∀ b : Bin, (b ∈ (maybe_reoptimize threshold_for s now trucks bins).2.2.2 ↔
      b ∈ bins ∧ b.status = .active ∧ threshold_for b ≤ b.fill_level) := by
  have hcond : ¬(now - s.last_radar_check < s.radar_check_interval_minutes) :=
    not_lt.mpr h
  rw [maybe_reoptimize, if_neg hcond]
  refine ⟨rfl, ?_⟩
  intro b
  show b ∈ find_urgent_bins threshold_for bins ↔ _
  rw [find_urgent_bins, List.mem_filter]
  simp [and_assoc]

/-- Constant-80 threshold used in the radar witness/counterexample. -/
def threshold80 : Bin → ℚ := fun _ => 80

/-- C8 witness: the amended radar theorem at a concrete state (interval 2,
last check at 0, queried at minute 10) with one urgent bin. -/
theorem radar_attempts_all_urgent_witness :
    (OptimizationService.radar_check_interval_minutes {} ≤ 10 - OptimizationService.last_radar_check {}) ∧
    ((maybe_reoptimize threshold80 {} 10 [truckW] [binW]).2.2.2 =
        find_urgent_bins threshold80 [binW] ∧
      ∀ b : Bin, (b ∈ (maybe_reoptimize threshold80 {} 10 [truckW] [binW]).2.2.2 ↔
        b ∈ [binW] ∧ b.status = .active ∧ threshold80 b ≤ b.fill_level)) :=
  ⟨by norm_num, radar_attempts_all_urgent threshold80 {} 10 [truckW] [binW] (by norm_num)⟩

/-- C8 counterexample: the same bin is urgent at two successive passing
checks (minute 5 and minute 10) and incremental insertion is attempted for
it BOTH times — the bins attempted are exactly the currently urgent ones,
not the newly-urgent ones, contradicting the claim that a bin already
urgent at the previous check is not re-attempted. -/
theorem radar_reattempts_urgent_bin_cex :
    (maybe_reoptimize threshold80 {} 5 [truckW] [binW]).2.2.2 = [binW] ∧
    (maybe_reoptimize threshold80
        (maybe_reoptimize threshold80 {} 5 [truckW] [binW]).2.1
        10 [truckW] [binW]).2.2.2 = [binW] ∧
    binW ∈ (maybe_reoptimize threshold80
        (maybe_reoptimize threshold80 {} 5 [truckW] [binW]).2.1
        10 [truckW] [binW]).2.2.2 := by
  have h1 : (maybe_reoptimize threshold80 {} 5 [truckW] [binW]).2.2.2 = [binW] := by
    rw [maybe_reoptimize, if_neg (by norm_num)]
    show find_urgent_bins threshold80 [binW] = [binW]
    rw [find_urgent_bins, List.filter_cons, List.filter_nil]
    norm_num [threshold80, binW]
  have hs1 : (maybe_reoptimize threshold80 {} 5 [truckW] [binW]).2.1 =
      { last_radar_check := 5 : OptimizationService } := by
    rw [maybe_reoptimize, if_neg (by norm_num)]
  have h2 : (maybe_reoptimize threshold80
      (maybe_reoptimize threshold80 {} 5 [truckW] [binW]).2.1
      10 [truckW] [binW]).2.2.2 = [binW] := by
    rw [hs1, maybe_reoptimize, if_neg (by norm_num)]
    show find_urgent_bins threshold80 [binW] = [binW]
    rw [find_urgent_bins, List.filter_cons, List.filter_nil]
    norm_num [threshold80, binW]
  exact ⟨h1, h2, by rw [h2]; exact List.mem_singleton_self binW⟩

end Cleanify
